import Mathlib

/-!
Verification of the clanker-web-search tool (src/unnamed/part_000).

The tool is a single TypeScript module: a credential resolver (`getApiKey`),
a date-range calculator (`calculateFromDate`), a request builder and a
response translator (the body of `execute`).  Everything is embedded
shallowly below:

* JavaScript values read from the host shared store are modelled by
  `JSValue`; `undefined` is modelled by `Option.none`.
* JavaScript truthiness of strings ("" is falsy) and of optional values is
  modelled explicitly wherever the source relies on it (`||`, `if (x)`).
* Machine time is modelled as milliseconds since the Unix epoch
  (an unbounded `Int`), with the host clock in UTC (ECMA-262 local-time
  conversions with zero offset).  The `/` and `%` operators on `Int` are
  Euclidean division and remainder; for the positive literal divisors used
  here these coincide with the floor division and non-negative modulo that
  ECMA-262 prescribes for its Date abstract operations.
* The remote HTTP exchange is modelled by passing the (arbitrary) response
  as a parameter.
-/

/-- A JavaScript value stored in the host shared key-value store.
Only the distinctions the source observes are kept: strings (whose
truthiness depends on emptiness), and other values (numbers, booleans,
null, objects) whose truthiness is recorded.  An absent key is `none`
at the store level. -/
inductive JSValue where
  | str (s : String)
  | num (n : Int)
  | boolean (b : Bool)
  | nullv
  | obj
deriving DecidableEq

/-- Embeds the test `v && typeof v === 'string'` applied to a possibly
absent store value: yields the string exactly when the slot holds a
non-empty string (`""` is falsy; non-strings fail the typeof test). -/
def nonEmptyStringOf : Option JSValue → Option String
  | some (JSValue.str s) => if s = "" then none else some s
  | _ => none

/-- JavaScript `a || b` on values that are `undefined` or a string:
the left operand is taken when it is truthy (a non-empty string). -/
def orStrJs (a b : Option String) : Option String :=
  match a with
  | some s => if s = "" then b else some s
  | none => b

/-- JavaScript truthiness of an `undefined`-or-string value, as used by
`if (!apiKey)`, `if (fromDate)`, `if (include_domains)` and similar
guards in the source. -/
def strTruthy : Option String → Bool
  | some s => s ≠ ""
  | none => false

/-- The environment-variable fallback chain of `getApiKey` (line 38):
`process.env.X_AI_API_KEY || process.env.GROK_API_KEY || process.env.OPENAI_API_KEY`. -/
def envChain (env : String → Option String) : Option String :=
  orStrJs (orStrJs (env "X_AI_API_KEY") (env "GROK_API_KEY")) (env "OPENAI_API_KEY")

/-- Embedding of `getApiKey` (src/unnamed/part_000, lines 11-44).
`sharedState` is `none` when the context has no `sharedState` field
(the `if (contextWithSharedState.sharedState)` guard); `env` is
`process.env`.  Logging calls are pure observations and are dropped. -/
def getApiKey (sharedState : Option (String → Option JSValue))
    (env : String → Option String) : Option String :=
  match sharedState with
  | none => envChain env
  | some st =>
    match nonEmptyStringOf (st "clanker:apiKey") with
    | some k => some k
    | none =>
      match st "clanker:provider" with
      | some (JSValue.str p) =>
        if p = "grok" ∨ p = "openai" then
          match nonEmptyStringOf (st ("clanker:" ++ p ++ ":apiKey")) with
          | some k => some k
          | none => envChain env
        else envChain env
      | _ => envChain env

/-- How the caller of `getApiKey` observes its result: `if (!apiKey)`
treats `undefined` and `""` alike as absence (line 160).  A resolution
yielding `none` here is what the specification calls signalling absence. -/
def pickNonEmpty : Option String → Option String
  | some s => if s = "" then none else some s
  | none => none

/-- First-some choice used to phrase the specified priority order. -/
def orOpt (a b : Option String) : Option String :=
  match a with
  | some s => some s
  | none => b

/-- Specification-side: the provider-scoped tier as the claim words it —
the provider marker must equal one of the known provider names and the
provider-scoped slot must hold a non-empty string. -/
def providerScopedSpec (st : String → Option JSValue) : Option String :=
  match st "clanker:provider" with
  | some (JSValue.str p) =>
    if p = "grok" ∨ p = "openai" then
      nonEmptyStringOf (st ("clanker:" ++ p ++ ":apiKey"))
    else none
  | _ => none

/-- Specification-side: probe the three environment variable names in
fixed order and take the first non-empty value. -/
def firstNonEmptyEnvSpec (env : String → Option String) : Option String :=
  orOpt (pickNonEmpty (env "X_AI_API_KEY"))
    (orOpt (pickNonEmpty (env "GROK_API_KEY"))
      (pickNonEmpty (env "OPENAI_API_KEY")))

/-- Specification-side credential resolution exactly as claim C1 words it:
direct shared slot first, then the provider-scoped slot, then the
environment chain; `none` means absence is signalled. -/
def credResolveSpec (sharedState : Option (String → Option JSValue))
    (env : String → Option String) : Option String :=
  match sharedState with
  | some st =>
    orOpt (nonEmptyStringOf (st "clanker:apiKey"))
      (orOpt (providerScopedSpec st) (firstNonEmptyEnvSpec env))
  | none => firstNonEmptyEnvSpec env

/-- Point update of a shared store: used to state that an ill-typed or
empty slot behaves exactly as an absent one (claim C10). -/
def setSlot (st : String → Option JSValue) (k : String) (v : Option JSValue) :
    String → Option JSValue :=
  fun q => if q = k then v else st q

/-- Gregorian civil date (year, month 1..12, day of month) of a day
number counted from 1970-01-01 (the composite of the ECMA-262 abstract
operations YearFromTime, MonthFromTime and DateFromTime, computed with
the standard era-based civil-from-days algorithm).  `/` and `%` on `Int`
are Euclidean and the divisors are positive, so they are the floor
division and non-negative remainder ECMA-262 uses. -/
def civilFromDays (z0 : Int) : Int × Int × Int :=
  let z := z0 + 719468
  let era := z / 146097
  let doe := z % 146097
  let yoe := (doe - doe / 1460 + doe / 36524 - doe / 146096) / 365
  let y := yoe + era * 400
  let doy := doe - (365 * yoe + yoe / 4 - yoe / 100)
  let mp := (5 * doy + 2) / 153
  let d := doy - (153 * mp + 2) / 5 + 1
  let m := if mp < 10 then mp + 3 else mp - 9
  (if m ≤ 2 then y + 1 else y, m, d)

/-- Day number (from 1970-01-01) of a Gregorian civil date; the month is
meant in 1..12 and the day enters linearly, so day overflow normalizes
exactly as the ECMA-262 MakeDay operation requires. -/
def daysFromCivil (y0 m d : Int) : Int :=
  let y := if m ≤ 2 then y0 - 1 else y0
  let era := y / 400
  let yoe := y - era * 400
  let mp := if m > 2 then m - 3 else m + 9
  let doy := (153 * mp + 2) / 5 + d - 1
  let doe := yoe * 365 + yoe / 4 - yoe / 100 + doy
  era * 146097 + doe - 719468

/-- ECMA-262 Day(t). -/
def jsDay (t : Int) : Int := t / 86400000

/-- ECMA-262 TimeWithinDay(t). -/
def jsTimeWithinDay (t : Int) : Int := t % 86400000

/-- ECMA-262 HourFromTime(t). -/
def jsHourFromTime (t : Int) : Int := t / 3600000 % 24

/-- ECMA-262 MinFromTime(t). -/
def jsMinFromTime (t : Int) : Int := t / 60000 % 60

/-- ECMA-262 SecFromTime(t). -/
def jsSecFromTime (t : Int) : Int := t / 1000 % 60

/-- ECMA-262 msFromTime(t). -/
def jsMsFromTime (t : Int) : Int := t % 1000

/-- ECMA-262 MakeTime. -/
def jsMakeTime (h mi s ms : Int) : Int := ((h * 60 + mi) * 60 + s) * 1000 + ms

/-- ECMA-262 MakeDate. -/
def jsMakeDate (d time : Int) : Int := d * 86400000 + time

/-- ECMA-262 MakeDay(year, month, date): the month argument is 0-based
and may lie outside 0..11 (it is normalized into the year), and the date
argument may overflow the month (it is added linearly from the first of
the month). -/
def jsMakeDay (y month date : Int) : Int :=
  daysFromCivil (y + month / 12) (month % 12 + 1) 1 + (date - 1)

/-- ECMA-262 YearFromTime(t) (UTC clock). -/
def jsYearFromTime (t : Int) : Int := (civilFromDays (jsDay t)).1

/-- ECMA-262 MonthFromTime(t): 0-based month, as `getMonth` returns it. -/
def jsMonthFromTime (t : Int) : Int := (civilFromDays (jsDay t)).2.1 - 1

/-- ECMA-262 DateFromTime(t): the day of month, as `getDate` returns it. -/
def jsDateFromTime (t : Int) : Int := (civilFromDays (jsDay t)).2.2

/-- `now.setHours(h)` : MakeDate(Day(t), MakeTime(h, MinFromTime(t),
SecFromTime(t), msFromTime(t))). -/
def jsSetHours (t h : Int) : Int :=
  jsMakeDate (jsDay t) (jsMakeTime h (jsMinFromTime t) (jsSecFromTime t) (jsMsFromTime t))

/-- `now.setDate(d)` : MakeDate(MakeDay(YearFromTime(t), MonthFromTime(t), d),
TimeWithinDay(t)). -/
def jsSetDate (t d : Int) : Int :=
  jsMakeDate (jsMakeDay (jsYearFromTime t) (jsMonthFromTime t) d) (jsTimeWithinDay t)

/-- `now.setMonth(m)` : MakeDate(MakeDay(YearFromTime(t), m, DateFromTime(t)),
TimeWithinDay(t)). -/
def jsSetMonth (t m : Int) : Int :=
  jsMakeDate (jsMakeDay (jsYearFromTime t) m (jsDateFromTime t)) (jsTimeWithinDay t)

/-- `now.setFullYear(y)` : MakeDate(MakeDay(y, MonthFromTime(t), DateFromTime(t)),
TimeWithinDay(t)). -/
def jsSetFullYear (t y : Int) : Int :=
  jsMakeDate (jsMakeDay y (jsMonthFromTime t) (jsDateFromTime t)) (jsTimeWithinDay t)

/-- Decimal digit character. -/
def digitChar (n : Nat) : Char := Char.ofNat (48 + n % 10)

/-- Decimal digits of a natural number (fuel-driven, most significant first). -/
def natDigits : Nat → Nat → List Char
  | 0, _ => []
  | fuel + 1, n => if n < 10 then [digitChar n] else natDigits fuel (n / 10) ++ [digitChar (n % 10)]

/-- Decimal string of a natural number, as JavaScript prints integers. -/
def natStr (n : Nat) : String := String.mk (natDigits (n + 1) n)

/-- Decimal string of an integer, as JavaScript prints integral numbers. -/
def intStr (i : Int) : String := (if i < 0 then "-" else "") ++ natStr i.natAbs

/-- Left-pad with zeros to the given width. -/
def padZeros (k : Nat) (s : String) : String :=
  String.mk (List.replicate (k - s.data.length) '0') ++ s

/-- Two-digit field of toISOString. -/
def pad2 (n : Int) : String := padZeros 2 (natStr n.natAbs)

/-- Year field of `toISOString`: four digits for years 0..9999, otherwise
an explicit sign and six digits (the expanded-year format). -/
def isoYearString (y : Int) : String :=
  if 0 ≤ y ∧ y ≤ 9999 then padZeros 4 (natStr y.natAbs)
  else (if y < 0 then "-" else "+") ++ padZeros 6 (natStr y.natAbs)

/-- `d.toISOString().split('T')[0]`: the ISO calendar date (UTC) of a time
value — the truncation of the time value to calendar-date granularity. -/
def isoDateOfMs (t : Int) : String :=
  let c := civilFromDays (jsDay t)
  isoYearString c.1 ++ "-" ++ pad2 c.2.1 ++ "-" ++ pad2 c.2.2

/-- Embedding of `calculateFromDate` (src/unnamed/part_000, lines 49-77):
`all` is answered before the switch; each recognised keyword mutates a
copy of `now` with the corresponding setter and the result is formatted
with `toISOString().split('T')[0]`; the switch default yields `undefined`.
`nowMs` is the time value of `new Date()`. -/
def calculateFromDate (timeRange : String) (nowMs : Int) : Option String :=
  if timeRange = "all" then none
  else if timeRange = "hour" then
    some (isoDateOfMs (jsSetHours nowMs (jsHourFromTime nowMs - 1)))
  else if timeRange = "day" then
    some (isoDateOfMs (jsSetDate nowMs (jsDateFromTime nowMs - 1)))
  else if timeRange = "week" then
    some (isoDateOfMs (jsSetDate nowMs (jsDateFromTime nowMs - 7)))
  else if timeRange = "month" then
    some (isoDateOfMs (jsSetMonth nowMs (jsMonthFromTime nowMs - 1)))
  else if timeRange = "year" then
    some (isoDateOfMs (jsSetFullYear nowMs (jsYearFromTime nowMs - 1)))
  else none

/-- Specification-side (claim C3): one calendar month earlier — decrement
the month, rolling month 1 over to month 12 of the previous year; keep
the day of month (overflow past the end of the shorter target month
normalizes forward, days being linear) and the time of day. -/
def minusOneCalendarMonth (t : Int) : Int :=
  let c := civilFromDays (jsDay t)
  (if c.2.1 = 1 then daysFromCivil (c.1 - 1) 12 c.2.2
   else daysFromCivil c.1 (c.2.1 - 1) c.2.2) * 86400000 + jsTimeWithinDay t

/-- Specification-side (claim C3): one calendar year earlier — decrement
the year, keeping month, day of month (Feb 29 normalizes forward in a
non-leap target year) and time of day. -/
def minusOneCalendarYear (t : Int) : Int :=
  let c := civilFromDays (jsDay t)
  daysFromCivil (c.1 - 1) c.2.1 c.2.2 * 86400000 + jsTimeWithinDay t

/-- The number literal `0.5` (the declared recency_weight default), in a
constructor form the kernel can evaluate. -/
def halfQ : ℚ := ⟨1, 2, by decide, Nat.coprime_one_left 2⟩

/-- Validated tool arguments as the host hands them to `execute`
(lines 88-155).  Arguments the code reads only through strict string
comparisons and that carry registered string defaults (`search_type`,
`time_range`, `language`) are plain strings; the rest may be absent
(`undefined`) at the JS level and are `Option`s. -/
structure Args where
  query : String
  search_type : String
  max_results : Option Int
  time_range : String
  language : String
  return_citations : Option Bool
  return_images : Option Bool
  include_domains : Option String
  exclude_domains : Option String
  search_mode : Option String
  recency_weight : Option ℚ
  custom_date_from : Option String
  custom_date_to : Option String

/-- Arguments with only a query supplied, every other field at its
registered default (lines 88-137): search_type `all`, max_results 10,
time_range `all`, language `en`, return_citations true, return_images
false, search_mode `on`, recency_weight 0.5, no domain filters and no
custom dates. -/
def defaultArgs (q : String) : Args where
  query := q
  search_type := "all"
  max_results := some 10
  time_range := "all"
  language := "en"
  return_citations := some true
  return_images := some false
  include_domains := none
  exclude_domains := none
  search_mode := some "on"
  recency_weight := some halfQ
  custom_date_from := none
  custom_date_to := none

/-- ASCII part of the whitespace class trimmed by
`String.prototype.trim`. -/
def isJsSpace (c : Char) : Bool := c = ' ' || c = '\t' || c = '\n' || c = '\r'

/-- Trim leading and trailing whitespace from a character list. -/
def trimChars (l : List Char) : List Char :=
  ((l.dropWhile isJsSpace).reverse.dropWhile isJsSpace).reverse

/-- JavaScript `s.trim()`. -/
def jsTrim (s : String) : String := String.mk (trimChars s.data)

/-- JavaScript `s.split(',')` on the underlying characters; the empty
string yields one empty group, exactly as in JavaScript. -/
def splitOnComma : List Char → List (List Char)
  | [] => [[]]
  | c :: cs =>
    if c = ',' then [] :: splitOnComma cs
    else
      match splitOnComma cs with
      | [] => [[c]]
      | g :: gs => (c :: g) :: gs

/-- `String(x).split(',').map(d => d.trim()).filter(d => d)`
(lines 197 and 204): split on commas, trim each entry, drop the entries
that are empty after trimming. -/
def parseDomains (s : String) : List String :=
  ((splitOnComma s.data).map fun l => String.mk (trimChars l)).filter fun d => d != ""

/-- The nested search-configuration block of the outbound request.
Fields the code assigns unconditionally are plain; fields it assigns
only under a guard are `Option`s, `none` meaning the key is omitted
(the remote API receives no key at all, not a null). -/
structure SearchParameters where
  max_search_results : Int
  return_citations : Bool
  mode : String
  from_date : Option String
  to_date : Option String
  return_images : Option Bool
  recency_weight : Option ℚ
  include_domains : Option (List String)
  exclude_domains : Option (List String)
deriving DecidableEq

/-- One chat message of the outbound body. -/
structure ChatMessage where
  role : String
  content : String
deriving DecidableEq

/-- The outbound JSON body (lines 226-240). -/
structure RequestBody where
  model : String
  messages : List ChatMessage
  search_parameters : SearchParameters
  stream : Bool
deriving DecidableEq

/-- The `searchParameters` object assembled in `execute` (lines 172-208).
`Option` fields model presence of the corresponding JSON key: `none`
means the key was never assigned, matching the omission contract.
`nowMs` is the time value of `new Date()` during the call. -/
def buildSearchParameters (a : Args) (nowMs : Int) : SearchParameters :=
  let toDate : String :=
    match a.custom_date_to with
    | some s => if s = "" then isoDateOfMs nowMs else s
    | none => isoDateOfMs nowMs
  let fromDate : Option String :=
    match a.custom_date_from with
    | some s => if s = "" then calculateFromDate a.time_range nowMs else some s
    | none => calculateFromDate a.time_range nowMs
  { max_search_results :=
      match a.max_results with
      | some n => if n = 0 then 10 else n
      | none => 10
    return_citations := a.return_citations != some false
    mode :=
      match a.search_mode with
      | some s => if s = "" then "on" else s
      | none => "on"
    from_date := if strTruthy fromDate then fromDate else none
    to_date := if toDate ≠ "" ∧ a.time_range ≠ "all" then some toDate else none
    return_images := if a.return_images = some true then some true else none
    recency_weight :=
      match a.recency_weight with
      | some w => if w ≠ halfQ then some w else none
      | none => none
    include_domains :=
      match a.include_domains with
      | some s =>
        if s = "" then none
        else if parseDomains s = [] then none else some (parseDomains s)
      | none => none
    exclude_domains :=
      match a.exclude_domains with
      | some s =>
        if s = "" then none
        else if parseDomains s = [] then none else some (parseDomains s)
      | none => none }

/-- The system message (lines 210-223): three variants selected by
search_type, plus a language directive when a truthy language other than
`en` is given. -/
def buildSystemMessage (a : Args) : String :=
  (if a.search_type = "twitter" then
    "You are a search assistant. Search Twitter/X for the latest posts and information about: "
      ++ a.query ++ ". Focus on recent tweets and discussions."
   else if a.search_type = "web" then
    "You are a search assistant. Search the web for information about: " ++ a.query
      ++ ". Provide a comprehensive summary of the results from websites and articles."
   else
    "You are a search assistant. Search both the web and Twitter/X for information about: "
      ++ a.query ++ ". Provide a comprehensive summary combining results from both sources.")
  ++ (if a.language ≠ "" ∧ a.language ≠ "en" then
        " Prioritize results in " ++ a.language ++ " language."
      else "")

/-- The outbound request body (lines 226-240). -/
def buildRequestBody (a : Args) (nowMs : Int) : RequestBody where
  model := "grok-3"
  messages := [⟨"system", buildSystemMessage a⟩, ⟨"user", a.query⟩]
  search_parameters := buildSearchParameters a nowMs
  stream := false

/-- The outbound HTTP call (lines 245-253): fixed URL, bearer-style
Authorization header carrying the resolved credential, JSON body. -/
structure OutboundCall where
  url : String
  authorization : String
  body : RequestBody

/-- Assembles the outbound call of `execute`. -/
def buildOutboundCall (a : Args) (apiKey : String) (nowMs : Int) : OutboundCall where
  url := "https://api.x.ai/v1/chat/completions"
  authorization := "Bearer " ++ apiKey
  body := buildRequestBody a nowMs

/-- One image entry of the response payload.  The formatter (lines
296-307) distinguishes exactly: a bare string, and an object with a
(possibly missing) url, title and source. -/
inductive ImageEntry where
  | strImg (s : String)
  | objImg (url : Option String) (title : Option String) (source : Option String)
deriving DecidableEq

/-- One choice of the response: only `message.content` is read. -/
structure Choice where
  content : String
deriving DecidableEq

/-- The fields of the parsed 2xx JSON payload that `execute` reads:
`choices`, `usage?.num_sources_used`, `citations`, `images`.  `none`
models a missing key. -/
structure ApiData where
  choices : Option (List Choice)
  num_sources_used : Option Int
  citations : Option (List String)
  images : Option (List ImageEntry)
deriving DecidableEq

/-- The remote response as `execute` observes it: the HTTP status, the
error body text (read on non-2xx) and the parsed JSON payload (read on
2xx). -/
structure HttpResponse where
  status : Int
  bodyText : String
  data : ApiData
deriving DecidableEq

/-- fetch `Response.ok`: status in the 2xx range. -/
def respOk (status : Int) : Bool := 200 ≤ status && status ≤ 299

/-- Decimal digits of a fraction num/den (0 < num < den), most
significant first, up to `fuel` digits; JavaScript prints the shortest
round-tripping decimal, which agrees with this on the terminating
decimal fractions that reach this formatter. -/
def fracDigits : Nat → Nat → Nat → List Char
  | 0, _, _ => []
  | fuel + 1, num, den =>
    if num = 0 then []
    else digitChar (num * 10 / den) :: fracDigits fuel (num * 10 % den) den

/-- Decimal rendering of a rational, as the template literal
interpolation of the recency weight prints a number. -/
def ratJsString (q : ℚ) : String :=
  (if q.num < 0 then "-" else "")
    ++ natStr (q.num.natAbs / q.den)
    ++ (if q.num.natAbs % q.den = 0 then ""
        else "." ++ String.mk (fracDigits 20 (q.num.natAbs % q.den) q.den))

/-- Interpolation of the raw recency_weight argument into the metadata
line (line 321): `undefined` when the argument was absent. -/
def recencyMetaString : Option ℚ → String
  | some w => ratJsString w
  | none => "undefined"

/-- `list.join(sep)`. -/
def joinSep (sep : String) : List String → String
  | [] => ""
  | [x] => x
  | x :: xs => x ++ sep ++ joinSep sep xs

/-- One line of the Related Images list (lines 298-306): bare-string
entries render as numbered image links; object entries render only when
their url is truthy, with the title defaulting and an optional source
link. -/
def imageLine (idx : Nat) (img : ImageEntry) : String :=
  match img with
  | ImageEntry.strImg s =>
      natStr (idx + 1) ++ ". ![Image " ++ natStr (idx + 1) ++ "](" ++ s ++ ")\n"
  | ImageEntry.objImg url title source =>
      match url with
      | some u =>
        if u = "" then ""
        else
          natStr (idx + 1) ++ ". !["
            ++ (match title with
                | some ttl => if ttl = "" then "Image " ++ natStr (idx + 1) else ttl
                | none => "Image " ++ natStr (idx + 1))
            ++ "](" ++ u ++ ")"
            ++ (match source with
                | some src => if src = "" then "" else " - [Source](" ++ src ++ ")"
                | none => "")
            ++ "\n"
      | none => ""

/-- The Related Images block appended when `data.images` is a non-empty
array (lines 296-307). -/
def imagesSection (imgs : List ImageEntry) : String :=
  "\n\n### Related Images:\n" ++ joinSep "" (imgs.enum.map fun p => imageLine p.1 p.2)

/-- The Sources block appended when `data.citations` is a non-empty
array (lines 309-314). -/
def citationsSection (cs : List String) : String :=
  "\n\n### Sources:\n" ++ joinSep "" (cs.enum.map fun p => natStr (p.1 + 1) ++ ". " ++ p.2 ++ "\n")

/-- The metadata items (lines 317-321): source count when positive,
the domain filters actually applied, and the recency weight whenever the
raw argument differs from 0.5 (an absent argument also differs). -/
def metadataItems (a : Args) (sp : SearchParameters) (sourcesUsed : Int) : List String :=
  (if sourcesUsed > 0 then [intStr sourcesUsed ++ " sources searched"] else [])
  ++ (match sp.include_domains with
      | some ds => ["Domains: " ++ joinSep ", " ds]
      | none => [])
  ++ (match sp.exclude_domains with
      | some ds => ["Excluded: " ++ joinSep ", " ds]
      | none => [])
  ++ (if a.recency_weight ≠ some halfQ then
        ["Recency weight: " ++ recencyMetaString a.recency_weight]
      else [])

/-- The formatted success report (lines 288-324), before the final
`trim()`: heading with the query, the first choice text, the optional
image and citation sections, and the metadata line when any item is
present.  `num_sources_used || 0` is the number itself when present
(0 is its own JavaScript fallback) and 0 when the key is missing. -/
def formatOutput (a : Args) (sp : SearchParameters) (d : ApiData) (firstChoice : Choice) : String :=
  let sourcesUsed : Int :=
    match d.num_sources_used with
    | some n => n
    | none => 0
  let base := "## Search Results for \"" ++ a.query ++ "\"\n\n" ++ firstChoice.content
  let withImages := base ++
    (match d.images with
     | some imgs => if imgs.length > 0 then imagesSection imgs else ""
     | none => "")
  let withCitations := withImages ++
    (match d.citations with
     | some cs => if cs.length > 0 then citationsSection cs else ""
     | none => "")
  let md := metadataItems a sp sourcesUsed
  withCitations ++ (if md.length > 0 then "\n\n*" ++ joinSep " | " md ++ "*" else "")

/-- The result contract returned to the host.  The real success object
also echoes a structured data payload (query, content, citations,
images, sources_used, search_parameters); the claims concern only the
formatted output and the error strings, which is what is kept here. -/
inductive ToolResult where
  | success (output : String)
  | failure (error : String)
deriving DecidableEq

/-- The response branch of `execute` (lines 255-340): the 401, 429 and
generic non-2xx failures, the missing/empty-choices failure, and the
formatted success (trimmed, line 331). -/
def handleResponse (a : Args) (sp : SearchParameters) (resp : HttpResponse) : ToolResult :=
  if ¬ respOk resp.status then
    if resp.status = 401 then
      ToolResult.failure "Invalid API key. Please check your X AI API key."
    else if resp.status = 429 then
      ToolResult.failure "Rate limit exceeded. Please try again later."
    else
      ToolResult.failure ("X AI API error: " ++ intStr resp.status ++ " - " ++ resp.bodyText)
  else
    match resp.data.choices with
    | none => ToolResult.failure "No response from X AI API"
    | some [] => ToolResult.failure "No response from X AI API"
    | some (c :: _) => ToolResult.success (jsTrim (formatOutput a sp resp.data c))

/-- `execute` after credential resolution succeeded: build the search
parameters and the outbound call (whose Authorization header carries the
credential) and translate the remote response. -/
def executeCall (a : Args) (apiKey : String) (nowMs : Int) (resp : HttpResponse) : ToolResult :=
  let call := buildOutboundCall a apiKey nowMs
  handleResponse a call.body.search_parameters resp

/-- The whole `execute` (lines 140-348): resolve the credential,
short-circuit to the configuration error when it is falsy, otherwise
perform the call. -/
def executeTool (sharedState : Option (String → Option JSValue))
    (env : String → Option String) (a : Args) (nowMs : Int) (resp : HttpResponse) : ToolResult :=
  match pickNonEmpty (getApiKey sharedState env) with
  | none => ToolResult.failure "X AI API key is required. For Clanker users: ensure Grok provider is configured in settings. Otherwise, set X_AI_API_KEY or GROK_API_KEY environment variable."
  | some k => executeCall a k nowMs resp

/-- Projection of the result text used to state substring facts about
concrete outcomes. -/
def resultText : ToolResult → String
  | ToolResult.success out => out
  | ToolResult.failure e => e

/-- Success discriminator. -/
def isSuccess : ToolResult → Bool
  | ToolResult.success _ => true
  | ToolResult.failure _ => false

/-- A concrete 200 response used to instantiate the success-path claims:
one choice, two citations, three sources used, no images. -/
def sampleSuccessResponse : HttpResponse where
  status := 200
  bodyText := ""
  data :=
    { choices := some [⟨"Lean is a proof assistant."⟩]
      num_sources_used := some 3
      citations := some ["https://a.example", "https://b.example"]
      images := none }

/-- A concrete 200 response carrying an image entry. -/
def sampleImagesResponse : HttpResponse where
  status := 200
  bodyText := ""
  data :=
    { choices := some [⟨"Result text."⟩]
      num_sources_used := some 2
      citations := none
      images := some [ImageEntry.strImg "https://example.com/a.png"] }

/-- A concrete empty payload for the failure-path claims. -/
def emptyApiData : ApiData where
  choices := none
  num_sources_used := none
  citations := none
  images := none

theorem pickNonEmpty_orStrJs (a b : Option String) :
    pickNonEmpty (orStrJs a b) = orOpt (pickNonEmpty a) (pickNonEmpty b) := by
  cases a with
  | none => rfl
  | some s =>
    by_cases h : s = "" <;> simp [orStrJs, pickNonEmpty, orOpt, h]

theorem pickNonEmpty_envChain (env : String → Option String) :
    pickNonEmpty (envChain env) = firstNonEmptyEnvSpec env := by
  unfold envChain firstNonEmptyEnvSpec
  rw [pickNonEmpty_orStrJs, pickNonEmpty_orStrJs]
  cases hx : pickNonEmpty (env "X_AI_API_KEY") <;>
    cases hg : pickNonEmpty (env "GROK_API_KEY") <;> simp [orOpt]

/-- C1: Credential resolution is total and deterministic with fixed
priority: the caller-observed result of `getApiKey` (where `""` counts as
absent, exactly as `if (!apiKey)` treats it) equals the specified
resolution — direct shared slot holding a non-empty string first, else a
known provider marker with a non-empty provider-scoped slot, else the
first non-empty of the three environment variables in fixed order, else
absence — for every shared store and environment. -/
theorem getApiKey_resolution_order (sharedState : Option (String → Option JSValue))
    (env : String → Option String) :
    pickNonEmpty (getApiKey sharedState env) = credResolveSpec sharedState env := by
  cases sharedState with
  | none => exact pickNonEmpty_envChain env
  | some st =>
    unfold getApiKey credResolveSpec
    cases hd : nonEmptyStringOf (st "clanker:apiKey") with
    | some k =>
      have hk : k ≠ "" := by
        unfold nonEmptyStringOf at hd
        cases hv : st "clanker:apiKey" with
        | none => rw [hv] at hd; exact absurd hd (by simp)
        | some v =>
          rw [hv] at hd
          cases v <;> simp_all [nonEmptyStringOf]
          intro h; rw [h] at hd; simp_all
      simp [pickNonEmpty, orOpt, hk, hd]
    | none =>
      unfold providerScopedSpec
      cases hp : st "clanker:provider" with
      | none => simp [orOpt, hd, hp, pickNonEmpty_envChain env]
      | some v =>
        cases v with
        | str p =>
          by_cases hknown : p = "grok" ∨ p = "openai"
          · cases hs : nonEmptyStringOf (st ("clanker:" ++ p ++ ":apiKey")) with
            | some k =>
              have hk : k ≠ "" := by
                unfold nonEmptyStringOf at hs
                cases hv : st ("clanker:" ++ p ++ ":apiKey") with
                | none => rw [hv] at hs; exact absurd hs (by simp)
                | some w =>
                  rw [hv] at hs
                  cases w <;> simp_all [nonEmptyStringOf]
                  intro h; rw [h] at hs; simp_all
              simp [pickNonEmpty, orOpt, hk, hd, hp, hs, hknown]
            | none => simp [orOpt, hd, hp, hs, hknown, pickNonEmpty_envChain env]
          · simp [hknown, orOpt, hd, hp, pickNonEmpty_envChain env]
        | num n => simp [orOpt, hd, hp, pickNonEmpty_envChain env]
        | boolean b => simp [orOpt, hd, hp, pickNonEmpty_envChain env]
        | nullv => simp [orOpt, hd, hp, pickNonEmpty_envChain env]
        | obj => simp [orOpt, hd, hp, pickNonEmpty_envChain env]

theorem civilFromDays_epoch : civilFromDays 0 = (1970, 1, 1) := by decide

theorem civilFromDays_leap_day : civilFromDays 11016 = (2000, 2, 29) := by decide

theorem civilFromDays_march_end : civilFromDays 19813 = (2024, 3, 31) := by decide

theorem daysFromCivil_epoch : daysFromCivil 1970 1 1 = 0 := by decide

set_option maxHeartbeats 4000000 in
theorem yoeBounds (doe : Int) (h0 : 0 ≤ doe) (h1 : doe < 146097) :
    0 ≤ (doe - doe / 1460 + doe / 36524 - doe / 146096) / 365 ∧
    (doe - doe / 1460 + doe / 36524 - doe / 146096) / 365 ≤ 399 ∧
    365 * ((doe - doe / 1460 + doe / 36524 - doe / 146096) / 365) +
        ((doe - doe / 1460 + doe / 36524 - doe / 146096) / 365) / 4 -
        ((doe - doe / 1460 + doe / 36524 - doe / 146096) / 365) / 100 ≤ doe ∧
    doe - (365 * ((doe - doe / 1460 + doe / 36524 - doe / 146096) / 365) +
        ((doe - doe / 1460 + doe / 36524 - doe / 146096) / 365) / 4 -
        ((doe - doe / 1460 + doe / 36524 - doe / 146096) / 365) / 100) ≤ 365 := by
  obtain ⟨q, hq⟩ : ∃ q, q = doe / 1460 := ⟨_, rfl⟩
  have hq0 : 0 ≤ q := by omega
  have hq1 : q ≤ 100 := by omega
  interval_cases q <;>
    first
      | omega
      | (obtain ⟨e, he⟩ : ∃ e, e = doe / 36524 := ⟨_, rfl⟩
         have he0 : 0 ≤ e := by omega
         have he1 : e ≤ 4 := by omega
         interval_cases e <;> omega)

set_option maxHeartbeats 1000000 in
theorem civilFromDays_spec (z : Int) :
    1 ≤ (civilFromDays z).2.1 ∧ (civilFromDays z).2.1 ≤ 12 ∧
      daysFromCivil (civilFromDays z).1 (civilFromDays z).2.1 (civilFromDays z).2.2 = z := by
  simp only [civilFromDays, daysFromCivil]
  set z' := z + 719468 with hz'
  set era := z' / 146097 with hera
  set doe := z' % 146097 with hdoe
  have hdoe0 : 0 ≤ doe := Int.emod_nonneg z' (by norm_num)
  have hdoe1 : doe < 146097 := Int.emod_lt_of_pos z' (by norm_num)
  have hb := yoeBounds doe hdoe0 hdoe1
  set yoe := (doe - doe / 1460 + doe / 36524 - doe / 146096) / 365 with hyoe
  set doy := doe - (365 * yoe + yoe / 4 - yoe / 100) with hdoy
  set mp := (5 * doy + 2) / 153 with hmp
  have hmpB : 0 ≤ mp ∧ mp ≤ 11 := by omega
  have hl : (yoe + era * 400) / 400 = era := by omega
  split
  · rename_i hmplt
    simp only [if_neg (by omega : ¬ (mp + 3 ≤ 2)), if_pos (by omega : (2 : Int) < mp + 3)]
    refine ⟨by omega, by omega, ?_⟩
    rw [hl]
    have h5 : yoe + era * 400 - era * 400 = yoe := by ring
    rw [h5]
    have h3 : mp + 3 - 3 = mp := by omega
    rw [h3]
    omega
  · rename_i hmpge
    simp only [if_pos (by omega : mp - 9 ≤ 2), if_neg (by omega : ¬ ((2:Int) < mp - 9))]
    refine ⟨by omega, by omega, ?_⟩
    have h4 : yoe + era * 400 + 1 - 1 = yoe + era * 400 := by ring
    rw [h4, hl]
    have h5 : yoe + era * 400 - era * 400 = yoe := by ring
    rw [h5]
    have h3 : mp - 9 + 9 = mp := by omega
    rw [h3]
    omega

theorem daysFromCivil_day (y m d : Int) :
    daysFromCivil y m d = daysFromCivil y m 1 + (d - 1) := by
  simp only [daysFromCivil]
  split <;> split <;> ring

theorem jsMakeDay_self (t : Int) :
    jsMakeDay (jsYearFromTime t) (jsMonthFromTime t) (jsDateFromTime t) = jsDay t := by
  obtain ⟨h1, h2, h3⟩ := civilFromDays_spec (jsDay t)
  unfold jsMakeDay jsYearFromTime jsMonthFromTime jsDateFromTime
  have hdiv : ((civilFromDays (jsDay t)).2.1 - 1) / 12 = 0 := by omega
  have hmod : ((civilFromDays (jsDay t)).2.1 - 1) % 12 = (civilFromDays (jsDay t)).2.1 - 1 := by
    omega
  rw [hdiv, hmod]
  have e1 : (civilFromDays (jsDay t)).1 + 0 = (civilFromDays (jsDay t)).1 := by ring
  have e2 : (civilFromDays (jsDay t)).2.1 - 1 + 1 = (civilFromDays (jsDay t)).2.1 := by ring
  rw [e1, e2, ← daysFromCivil_day]
  exact h3

theorem jsSetHours_sub (t : Int) : jsSetHours t (jsHourFromTime t - 1) = t - 3600000 := by
  simp only [jsSetHours, jsMakeDate, jsMakeTime, jsDay, jsHourFromTime, jsMinFromTime,
    jsSecFromTime, jsMsFromTime]
  omega

theorem jsSetDate_sub (t n : Int) :
    jsSetDate t (jsDateFromTime t - n) = t - n * 86400000 := by
  unfold jsSetDate
  have hlin : jsMakeDay (jsYearFromTime t) (jsMonthFromTime t) (jsDateFromTime t - n)
      = jsMakeDay (jsYearFromTime t) (jsMonthFromTime t) (jsDateFromTime t) - n := by
    simp only [jsMakeDay]; ring
  rw [hlin, jsMakeDay_self]
  simp only [jsMakeDate, jsTimeWithinDay, jsDay]
  omega

theorem jsSetMonth_spec (t : Int) :
    jsSetMonth t (jsMonthFromTime t - 1) = minusOneCalendarMonth t := by
  obtain ⟨h1, h2, -⟩ := civilFromDays_spec (jsDay t)
  simp only [jsSetMonth, minusOneCalendarMonth, jsMakeDay, jsMonthFromTime, jsYearFromTime,
    jsDateFromTime, jsMakeDate]
  by_cases hm : (civilFromDays (jsDay t)).2.1 = 1
  · have hdiv : ((civilFromDays (jsDay t)).2.1 - 1 - 1) / 12 = -1 := by omega
    have hmod : ((civilFromDays (jsDay t)).2.1 - 1 - 1) % 12 = 11 := by omega
    rw [hdiv, hmod, if_pos hm]
    rw [daysFromCivil_day ((civilFromDays (jsDay t)).1 - 1) 12 ((civilFromDays (jsDay t)).2.2)]
    have e1 : (civilFromDays (jsDay t)).1 + -1 = (civilFromDays (jsDay t)).1 - 1 := by ring
    have e2 : (11 : Int) + 1 = 12 := by norm_num
    rw [e1, e2]
  · have hge : 2 ≤ (civilFromDays (jsDay t)).2.1 := by omega
    have hdiv : ((civilFromDays (jsDay t)).2.1 - 1 - 1) / 12 = 0 := by omega
    have hmod : ((civilFromDays (jsDay t)).2.1 - 1 - 1) % 12 = (civilFromDays (jsDay t)).2.1 - 2 := by
      omega
    rw [hdiv, hmod, if_neg hm]
    rw [daysFromCivil_day ((civilFromDays (jsDay t)).1) ((civilFromDays (jsDay t)).2.1 - 1)
      ((civilFromDays (jsDay t)).2.2)]
    have e1 : (civilFromDays (jsDay t)).1 + 0 = (civilFromDays (jsDay t)).1 := by ring
    have e2 : (civilFromDays (jsDay t)).2.1 - 2 + 1 = (civilFromDays (jsDay t)).2.1 - 1 := by ring
    rw [e1, e2]

theorem jsSetFullYear_spec (t : Int) :
    jsSetFullYear t (jsYearFromTime t - 1) = minusOneCalendarYear t := by
  obtain ⟨h1, h2, -⟩ := civilFromDays_spec (jsDay t)
  simp only [jsSetFullYear, minusOneCalendarYear, jsMakeDay, jsMonthFromTime, jsYearFromTime,
    jsDateFromTime, jsMakeDate]
  have hdiv : ((civilFromDays (jsDay t)).2.1 - 1) / 12 = 0 := by omega
  have hmod : ((civilFromDays (jsDay t)).2.1 - 1) % 12 = (civilFromDays (jsDay t)).2.1 - 1 := by
    omega
  rw [hdiv, hmod]
  rw [daysFromCivil_day ((civilFromDays (jsDay t)).1 - 1) ((civilFromDays (jsDay t)).2.1)
    ((civilFromDays (jsDay t)).2.2)]
  have e1 : (civilFromDays (jsDay t)).1 - 1 + 0 = (civilFromDays (jsDay t)).1 - 1 := by ring
  have e2 : (civilFromDays (jsDay t)).2.1 - 1 + 1 = (civilFromDays (jsDay t)).2.1 := by ring
  rw [e1, e2]

/-- C3: for every time value of the host clock, `calculateFromDate` maps
each recognised time_range except `all` to the ISO calendar date of `now`
minus the documented fixed offset — exactly one hour, one day and seven
days of milliseconds for `hour`, `day` and `week`, and one calendar month
resp. one calendar year (month/year decrement with day-of-month kept and
overflow normalized) for `month` and `year` — truncated to calendar-date
granularity; `all` and every unrecognised value yield no from-date. -/
theorem calculateFromDate_offsets (t : Int) :
    calculateFromDate "hour" t = some (isoDateOfMs (t - 3600000)) ∧
    calculateFromDate "day" t = some (isoDateOfMs (t - 86400000)) ∧
    calculateFromDate "week" t = some (isoDateOfMs (t - 7 * 86400000)) ∧
    calculateFromDate "month" t = some (isoDateOfMs (minusOneCalendarMonth t)) ∧
    calculateFromDate "year" t = some (isoDateOfMs (minusOneCalendarYear t)) ∧
    calculateFromDate "all" t = none ∧
    (∀ s : String, s ∉ ["hour", "day", "week", "month", "year", "all"] →
      calculateFromDate s t = none) := by
  refine ⟨?_, ?_, ?_, ?_, ?_, rfl, ?_⟩
  · have h : calculateFromDate "hour" t
        = some (isoDateOfMs (jsSetHours t (jsHourFromTime t - 1))) := rfl
    rw [h, jsSetHours_sub]
  · have h : calculateFromDate "day" t
        = some (isoDateOfMs (jsSetDate t (jsDateFromTime t - 1))) := rfl
    rw [h, jsSetDate_sub]
    norm_num
  · have h : calculateFromDate "week" t
        = some (isoDateOfMs (jsSetDate t (jsDateFromTime t - 7))) := rfl
    rw [h, jsSetDate_sub]
  · have h : calculateFromDate "month" t
        = some (isoDateOfMs (jsSetMonth t (jsMonthFromTime t - 1))) := rfl
    rw [h, jsSetMonth_spec]
  · have h : calculateFromDate "year" t
        = some (isoDateOfMs (jsSetFullYear t (jsYearFromTime t - 1))) := rfl
    rw [h, jsSetFullYear_spec]
  · intro s hs
    simp only [List.mem_cons, List.mem_singleton, not_or] at hs
    obtain ⟨hh, hd, hw, hm, hy, ha⟩ := hs
    simp [calculateFromDate, hh, hd, hw, hm, hy, ha]

/-- Witness for C3 at a concrete unrecognised time_range and time value. -/
theorem calculateFromDate_offsets_witness :
    ("banana" : String) ∉ (["hour", "day", "week", "month", "year", "all"] : List String) ∧
      calculateFromDate "banana" 0 = none := by
  refine ⟨by decide, ?_⟩
  exact (calculateFromDate_offsets 0).2.2.2.2.2.2 "banana" (by decide)

theorem halfQ_eq : halfQ = 1 / 2 := by
  rw [halfQ, Rat.mk'_eq_divInt, Rat.divInt_eq_div]
  norm_num

theorem data_append_eq (a b : String) : (a ++ b).data = a.data ++ b.data :=
  String.data_append a b

theorem substr_append_left (m y x : String) (h : m.data <:+: x.data) :
    m.data <:+: (y ++ x).data := by
  rw [data_append_eq]
  exact h.trans (List.suffix_append y.data x.data).isInfix

theorem substr_append_right (m x y : String) (h : m.data <:+: x.data) :
    m.data <:+: (x ++ y).data := by
  rw [data_append_eq]
  exact h.trans (List.prefix_append x.data y.data).isInfix

/-- C2 (code-bug evidence): with the repository's own documented example
arguments — a custom date range supplied while time_range keeps its
default `all` — the outbound request omits to_date entirely even though
a custom end date was supplied, while the custom start date is sent.
The guard `toDate && time_range !== 'all'` suppresses the custom end
date whenever time_range is `all`. -/
theorem customDateTo_dropped_when_time_range_all :
    (buildRequestBody { defaultArgs "climate change research" with
        custom_date_from := some "2024-01-01",
        custom_date_to := some "2024-06-30" } 0).search_parameters.to_date = none ∧
    (buildRequestBody { defaultArgs "climate change research" with
        custom_date_from := some "2024-01-01",
        custom_date_to := some "2024-06-30" } 0).search_parameters.from_date
      = some "2024-01-01" ∧
    (buildRequestBody { defaultArgs "climate change research" with
        custom_date_from := some "2024-01-01",
        custom_date_to := some "2024-06-30",
        time_range := "week" } 0).search_parameters.to_date = some "2024-06-30" := by
  refine ⟨by decide, by decide, by decide⟩

/-- C5: for every invocation whose recency_weight argument is a valid
value in [0,1], the outbound body omits the recency_weight key exactly
when the argument equals the documented default 0.5, and otherwise
carries it unchanged. -/
theorem recencyWeight_sent_iff_nondefault (a : Args) (nowMs : Int) (w : ℚ)
    (h0 : 0 ≤ w) (h1 : w ≤ 1) (hw : a.recency_weight = some w) :
    (w = 1 / 2 → (buildSearchParameters a nowMs).recency_weight = none) ∧
    (w ≠ 1 / 2 → (buildSearchParameters a nowMs).recency_weight = some w) := by
  constructor <;> intro h <;> rw [one_div] at h <;>
    simp [buildSearchParameters, hw, halfQ_eq, one_div, h]

/-- Witness for C5 at recency_weight 1. -/
theorem recencyWeight_sent_iff_nondefault_witness :
    (0 : ℚ) ≤ 1 ∧ (1 : ℚ) ≤ 1 ∧ (1 : ℚ) ≠ 1 / 2 ∧
      (buildSearchParameters { defaultArgs "q" with recency_weight := some 1 } 0).recency_weight
        = some 1 :=
  ⟨zero_le_one, le_refl 1, ne_of_gt one_half_lt_one,
    (recencyWeight_sent_iff_nondefault
        { defaultArgs "q" with recency_weight := some 1 } 0 1
        zero_le_one (le_refl 1) rfl).2 (ne_of_gt one_half_lt_one)⟩

/-- C6: domain strings are split on commas, entries trimmed, empty
entries dropped — "a.com, b.com ,," parses to exactly
["a.com", "b.com"] — and for every domain string the include/exclude
field is carried exactly when the parsed list is non-empty (an
all-empty/whitespace input leaves the field omitted entirely). -/
theorem domains_parsed_and_omitted (a : Args) (nowMs : Int) (s : String) :
    parseDomains "a.com, b.com ,," = ["a.com", "b.com"] ∧
    (a.include_domains = some s →
      (buildSearchParameters a nowMs).include_domains
        = if parseDomains s = [] then none else some (parseDomains s)) ∧
    (a.exclude_domains = some s →
      (buildSearchParameters a nowMs).exclude_domains
        = if parseDomains s = [] then none else some (parseDomains s)) ∧
    (a.include_domains = none → (buildSearchParameters a nowMs).include_domains = none) ∧
    (a.exclude_domains = none → (buildSearchParameters a nowMs).exclude_domains = none) := by
  have hempty : parseDomains "" = [] := by decide
  refine ⟨by decide, ?_, ?_, ?_, ?_⟩ <;> intro h
  · by_cases hs : s = ""
    · subst hs; simp [buildSearchParameters, h, hempty]
    · simp [buildSearchParameters, h, hs]
  · by_cases hs : s = ""
    · subst hs; simp [buildSearchParameters, h, hempty]
    · simp [buildSearchParameters, h, hs]
  · simp [buildSearchParameters, h]
  · simp [buildSearchParameters, h]

/-- Witness for C6 at the documented example string. -/
theorem domains_parsed_and_omitted_witness :
    (buildSearchParameters
        { defaultArgs "q" with include_domains := some "a.com, b.com ,," } 0).include_domains
      = some ["a.com", "b.com"] := by
  rw [(domains_parsed_and_omitted
      { defaultArgs "q" with include_domains := some "a.com, b.com ,," } 0
      "a.com, b.com ,,").2.1 rfl]
  decide


/-- C4 (amended): the Related Images section is controlled solely by the
response payload, never by return_images: the formatted text is
unchanged under any change of return_images; whenever the payload
carries a non-empty images array the section heading appears in the
formatted text; and an empty images array formats exactly as an absent
one. -/
theorem relatedImages_controlled_by_payload (a : Args) (b1 b2 : Option Bool)
    (nowMs : Int) (d : ApiData) (c : Choice) :
    (formatOutput { a with return_images := b1 }
        (buildSearchParameters { a with return_images := b1 } nowMs) d c
      = formatOutput { a with return_images := b2 }
        (buildSearchParameters { a with return_images := b2 } nowMs) d c) ∧
    (∀ img imgs, d.images = some (img :: imgs) →
      "### Related Images:".data <:+:
        (formatOutput a (buildSearchParameters a nowMs) d c).data) ∧
    (formatOutput a (buildSearchParameters a nowMs) { d with images := some [] } c
      = formatOutput a (buildSearchParameters a nowMs) { d with images := none } c) := by
  refine ⟨rfl, ?_, rfl⟩
  intro img imgs himg
  simp only [formatOutput, himg, imagesSection, List.length_cons]
  rw [if_pos (Nat.succ_pos imgs.length)]
  apply substr_append_right
  apply substr_append_right
  apply substr_append_left
  apply substr_append_right
  decide

/-- Witness for C4 (amended) at a concrete payload with one image. -/
theorem relatedImages_controlled_by_payload_witness :
    "### Related Images:".data <:+:
      (formatOutput (defaultArgs "q") (buildSearchParameters (defaultArgs "q") 0)
        sampleImagesResponse.data ⟨"Result text."⟩).data :=
  (relatedImages_controlled_by_payload (defaultArgs "q") (some false) (some true) 0
      sampleImagesResponse.data ⟨"Result text."⟩).2.1
    (ImageEntry.strImg "https://example.com/a.png") [] rfl

/-- C4 (counterexample): images were not requested (return_images false)
yet the response payload carries an image entry, and the Related Images
heading appears in the successful formatted text — refuting the claim
that no such section appears when images were not requested. -/
theorem relatedImages_shown_without_request :
    isSuccess (executeCall { defaultArgs "test query" with return_images := some false }
      "key" 0 sampleImagesResponse) = true ∧
    "### Related Images:".data <:+:
      (resultText (executeCall { defaultArgs "test query" with return_images := some false }
        "key" 0 sampleImagesResponse)).data := by
  refine ⟨by decide, by decide⟩

/-- C7 (amended): an HTTP 401 response yields the fixed invalid-credential
failure — a constant independent of the credential carried in the call
headers, so the message never echoes the credential (it can contain the
credential only when the credential happens to be a substring of that
fixed text). -/
theorem status401_fixed_failure (a : Args) (apiKey : String) (nowMs : Int)
    (resp : HttpResponse) (h : resp.status = 401) :
    executeCall a apiKey nowMs resp
      = ToolResult.failure "Invalid API key. Please check your X AI API key." := by
  simp [executeCall, handleResponse, respOk, h]

/-- Witness for C7 (amended) at a concrete credential and 401 response. -/
theorem status401_fixed_failure_witness :
    executeCall (defaultArgs "q") "secret-key-123" 0
        { status := 401, bodyText := "Unauthorized", data := emptyApiData }
      = ToolResult.failure "Invalid API key. Please check your X AI API key." :=
  status401_fixed_failure (defaultArgs "q") "secret-key-123" 0
    { status := 401, bodyText := "Unauthorized", data := emptyApiData } rfl

/-- C7 (counterexample): with the three-character credential "API" the
fixed 401 failure message does contain the literal credential string, so
"never contains the credential" fails as universally stated — even
though the message is a constant that does not depend on the
credential. -/
theorem status401_message_contains_short_credential :
    executeCall (defaultArgs "q") "API" 0
        { status := 401, bodyText := "", data := emptyApiData }
      = ToolResult.failure "Invalid API key. Please check your X AI API key." ∧
    "API".data <:+: "Invalid API key. Please check your X AI API key.".data := by
  refine ⟨by decide, by decide⟩

/-- C8: every 2xx response whose payload lacks a choices array or has an
empty one yields the fixed no-response failure; a success status alone
never produces a Success outcome. -/
theorem missing_choices_failure (a : Args) (apiKey : String) (nowMs : Int)
    (resp : HttpResponse) (h2 : 200 ≤ resp.status) (h3 : resp.status ≤ 299)
    (hc : resp.data.choices = none ∨ resp.data.choices = some []) :
    executeCall a apiKey nowMs resp = ToolResult.failure "No response from X AI API" := by
  have hok : respOk resp.status = true := by
    simp only [respOk, Bool.and_eq_true, decide_eq_true_eq]
    omega
  rcases hc with hc | hc <;> simp [executeCall, handleResponse, hok, hc]

/-- Witness for C8 at a concrete 200 response with no choices key. -/
theorem missing_choices_failure_witness :
    (200 : Int) ≤ 200 ∧ (200 : Int) ≤ 299 ∧
      executeCall (defaultArgs "q") "key" 0
          { status := 200, bodyText := "", data := emptyApiData }
        = ToolResult.failure "No response from X AI API" :=
  ⟨le_refl 200, by decide,
    missing_choices_failure (defaultArgs "q") "key" 0
      { status := 200, bodyText := "", data := emptyApiData }
      (le_refl 200) (by decide) (Or.inl rfl)⟩

set_option maxRecDepth 40000 in
/-- C9: a 200 response with one choice, two citations and
num_sources_used 3 yields a Success whose formatted text contains the
original query, the choice text, the two citations enumerated 1. and 2.
in that order, and a trailing note mentioning the count 3. -/
theorem success_format_contents :
    isSuccess (executeCall (defaultArgs "lean theorem prover") "key" 0
      sampleSuccessResponse) = true ∧
    "lean theorem prover".data <:+:
      (resultText (executeCall (defaultArgs "lean theorem prover") "key" 0
        sampleSuccessResponse)).data ∧
    "Lean is a proof assistant.".data <:+:
      (resultText (executeCall (defaultArgs "lean theorem prover") "key" 0
        sampleSuccessResponse)).data ∧
    "1. https://a.example\n2. https://b.example".data <:+:
      (resultText (executeCall (defaultArgs "lean theorem prover") "key" 0
        sampleSuccessResponse)).data ∧
    "3 sources searched".data <:+:
      (resultText (executeCall (defaultArgs "lean theorem prover") "key" 0
        sampleSuccessResponse)).data := by
  refine ⟨by decide, by decide, by decide, by decide, by decide⟩

theorem nonEmptyStringOf_none : nonEmptyStringOf none = none := rfl

/-- C10: a direct or provider-scoped shared-store slot holding a value
that is present but not a non-empty string resolves exactly as if the
slot were absent — resolution falls through to the next tier
unchanged. -/
theorem illTyped_slot_falls_through (st : String → Option JSValue)
    (env : String → Option String) (v : JSValue)
    (hv : nonEmptyStringOf (some v) = none) :
    (getApiKey (some (setSlot st "clanker:apiKey" (some v))) env
      = getApiKey (some (setSlot st "clanker:apiKey" none)) env) ∧
    (getApiKey (some (setSlot st "clanker:grok:apiKey" (some v))) env
      = getApiKey (some (setSlot st "clanker:grok:apiKey" none)) env) ∧
    (getApiKey (some (setSlot st "clanker:openai:apiKey" (some v))) env
      = getApiKey (some (setSlot st "clanker:openai:apiKey" none)) env) := by
  refine ⟨?_, ?_, ?_⟩
  · simp only [getApiKey]
    have e1 : setSlot st "clanker:apiKey" (some v) "clanker:apiKey" = some v := by
      simp [setSlot]
    have e2 : setSlot st "clanker:apiKey" none "clanker:apiKey" = none := by
      simp [setSlot]
    rw [e1, e2, hv]
    have e3 : setSlot st "clanker:apiKey" (some v) "clanker:provider"
        = st "clanker:provider" := by simp [setSlot]
    have e4 : setSlot st "clanker:apiKey" none "clanker:provider"
        = st "clanker:provider" := by simp [setSlot]
    simp only [nonEmptyStringOf, e3, e4]
    cases hp : st "clanker:provider" with
    | none => rfl
    | some w =>
      cases w with
      | str p =>
        by_cases hk : p = "grok" ∨ p = "openai"
        · rcases hk with hk | hk <;> subst hk <;> simp [setSlot]
        · simp [hk]
      | num n => rfl
      | boolean b => rfl
      | nullv => rfl
      | obj => rfl
  · simp only [getApiKey]
    have e1 : setSlot st "clanker:grok:apiKey" (some v) "clanker:apiKey"
        = st "clanker:apiKey" := by simp [setSlot]
    have e2 : setSlot st "clanker:grok:apiKey" none "clanker:apiKey"
        = st "clanker:apiKey" := by simp [setSlot]
    rw [e1, e2]
    cases hd : nonEmptyStringOf (st "clanker:apiKey") with
    | some k => rfl
    | none =>
      have e3 : setSlot st "clanker:grok:apiKey" (some v) "clanker:provider"
          = st "clanker:provider" := by simp [setSlot]
      have e4 : setSlot st "clanker:grok:apiKey" none "clanker:provider"
          = st "clanker:provider" := by simp [setSlot]
      simp only [e3, e4]
      cases hp : st "clanker:provider" with
      | none => rfl
      | some w =>
        cases w with
        | str p =>
          by_cases hk : p = "grok" ∨ p = "openai"
          · rcases hk with hk | hk <;> subst hk <;> simp [setSlot, hv, nonEmptyStringOf_none]
          · simp [hk]
        | num n => rfl
        | boolean b => rfl
        | nullv => rfl
        | obj => rfl
  · simp only [getApiKey]
    have e1 : setSlot st "clanker:openai:apiKey" (some v) "clanker:apiKey"
        = st "clanker:apiKey" := by simp [setSlot]
    have e2 : setSlot st "clanker:openai:apiKey" none "clanker:apiKey"
        = st "clanker:apiKey" := by simp [setSlot]
    rw [e1, e2]
    cases hd : nonEmptyStringOf (st "clanker:apiKey") with
    | some k => rfl
    | none =>
      have e3 : setSlot st "clanker:openai:apiKey" (some v) "clanker:provider"
          = st "clanker:provider" := by simp [setSlot]
      have e4 : setSlot st "clanker:openai:apiKey" none "clanker:provider"
          = st "clanker:provider" := by simp [setSlot]
      simp only [e3, e4]
      cases hp : st "clanker:provider" with
      | none => rfl
      | some w =>
        cases w with
        | str p =>
          by_cases hk : p = "grok" ∨ p = "openai"
          · rcases hk with hk | hk <;> subst hk <;> simp [setSlot, hv, nonEmptyStringOf_none]
          · simp [hk]
        | num n => rfl
        | boolean b => rfl
        | nullv => rfl
        | obj => rfl

/-- Witness for C10 at a numeric slot value over an empty store. -/
theorem illTyped_slot_falls_through_witness :
    nonEmptyStringOf (some (JSValue.num 5)) = none ∧
      (getApiKey (some (setSlot (fun _ => none) "clanker:apiKey" (some (JSValue.num 5))))
          (fun k => if k = "GROK_API_KEY" then some "env-key" else none)
        = getApiKey (some (setSlot (fun _ => none) "clanker:apiKey" none))
          (fun k => if k = "GROK_API_KEY" then some "env-key" else none)) :=
  ⟨rfl,
    (illTyped_slot_falls_through (fun _ => none)
      (fun k => if k = "GROK_API_KEY" then some "env-key" else none)
      (JSValue.num 5) rfl).1⟩
